import Mathlib

/-!
# Verification of `geoip2_tools/database.py`

A shallow embedding of the `Geoip2DataBase` manager from
`src/geoip2_tools/database.py`, together with proofs about its behaviour.

Modelling conventions:
* Byte strings are `List Nat`.
* The filesystem is a finite map from paths to file contents (an
  association list, first match wins) plus a set of existing directories.
* The environment (`os.environ`) values that the code reads are passed as
  explicit parameters (`envLicense` for `GEOIP2_MAXMIND_LICENSE_KEY`,
  `geoip2ToolsDirectory` for the module-level `GEOIP2_TOOLS_DIRECTORY`
  constant, which is itself resolved from `GEOIP2_TOOLS_DIRECTORY` with a
  default at import time).
* Optional Python string arguments are `Option String`; Python truthiness
  for them is `pyTruthy` (both `None` and `''` are falsy).
* The HTTP layer (`requests.get` streamed into a temporary file) together
  with `tarfile.open` is modelled at the level of the decoded archive: the
  response is a `Tar`, a list of members `(name, bytes)`, matching the use
  the code makes of it (`getnames`, extraction of one member by name).
  The chunked copy into the temporary file is content-preserving (it
  concatenates the chunks, skipping empty keep-alive chunks) and does not
  touch the target file, so it is folded into this value.
* `portalocker.Lock(path, mode='wb')` is modelled after portalocker's
  documented behaviour: a mode containing `w` is rewritten to the
  corresponding append mode (creating the file if absent, keeping its
  bytes) for the `open` call, the advisory lock is acquired, and then the
  file is truncated to zero bytes (`_prepare_fh`). Older portalocker
  versions passed `'wb'` straight to `open`, which also truncates; in
  every version the file has size zero once the `with` body starts.
  Lock contention/blocking is not modelled (a single process runs).
-/

/-- Byte content of a file (opaque bytes). -/
abbrev Bytes := List Nat

/-- A filesystem: files as a path-to-content association list (the first
matching entry is current), and the set of existing directories. -/
structure FS where
  files : List (String × Bytes)
  dirs : List String
deriving DecidableEq

/-- Content of the file at `p`, if a filesystem entry exists there. -/
def FS.lookupFile (fs : FS) (p : String) : Option Bytes :=
  fs.files.lookup p

/-- `os.path.lexists(p)`: a filesystem entry exists at `p`. -/
def FS.lexists (fs : FS) (p : String) : Bool :=
  (fs.lookupFile p).isSome

/-- Write content `b` to the file at `p` (create or overwrite). -/
def FS.setFile (fs : FS) (p : String) (b : Bytes) : FS :=
  { fs with files := (p, b) :: fs.files }

/-- `os.path.getsize(p)`: size in bytes of the file at `p` (0 if absent;
the real call would raise on a missing file, but the code only calls it on
the locked, hence existing, file). -/
def FS.getsize (fs : FS) (p : String) : Nat :=
  ((fs.lookupFile p).getD []).length

/-- Whether the directory `d` exists. -/
def FS.dirExists (fs : FS) (d : String) : Bool :=
  fs.dirs.contains d

/-- `os.makedirs(d, exist_ok=True)`: ensure directory `d` exists. -/
def FS.makedirs (fs : FS) (d : String) : FS :=
  if fs.dirExists d then fs else { fs with dirs := d :: fs.dirs }

/-- Python `s.startswith(p)` (kernel-reducible model over the character
list). -/
def strStartsWith (s p : String) : Bool :=
  List.isPrefixOf p.data s.data

/-- Python `s.endswith(p)` (kernel-reducible model over the character
list). -/
def strEndsWith (s p : String) : Bool :=
  List.isSuffixOf p.data s.data

/-- `posixpath.join` for two components: if the second starts with the
separator it wins; otherwise it is appended, inserting a separator unless
the first component is empty or already ends with one. -/
def osPathJoin (a b : String) : String :=
  if strStartsWith b "/" then b
  else if a = "" ∨ strEndsWith a "/" then a ++ b
  else a ++ "/" ++ b

/-- `posixpath.dirname`: the part of `p` before its last separator, with
trailing separators stripped from it unless it consists only of them. -/
def osPathDirname (p : String) : String :=
  let cs := p.data
  let i := cs.length - (cs.reverse.takeWhile (fun c => c ≠ '/')).length
  let head := cs.take i
  if head ≠ [] ∧ head.any (fun c => c ≠ '/') then
    String.mk ((head.reverse.dropWhile (fun c => c = '/')).reverse)
  else String.mk head

/-- Python truthiness of an optional string: `None` and `''` are falsy. -/
def pyTruthy (s : Option String) : Bool :=
  match s with
  | none => false
  | some s => s ≠ ""

/-- `DATABASE_ALIASES` from `database.py`. -/
def DATABASE_ALIASES : List (String × String) :=
  [("asn", "GeoLite2-ASN"), ("country", "GeoLite2-Country"), ("city", "GeoLite2-City")]

/-- Constructed manager state: the three attributes `__init__` resolves
(`self._reader` and `self._path` start as `None`; the reader cache is
threaded explicitly through `readerGet` below). After a successful
`__init__` the license key is a string (possibly empty): the assert only
rules out `None`. -/
structure Geoip2DataBase where
  edition_id : String
  directory : String
  license_key : String
deriving DecidableEq

/-- `license_key or os.environ.get(GEOIP2_MAXMIND_LICENSE_KEY_ENVNAME)`:
the explicit argument when truthy, otherwise the environment value. -/
def resolveCredential (license_key envLicense : Option String) : Option String :=
  if pyTruthy license_key then license_key else envLicense

/-- `Geoip2DataBase.__init__`. `geoip2ToolsDirectory` is the module-level
`GEOIP2_TOOLS_DIRECTORY` constant and `envLicense` the value of the
`GEOIP2_MAXMIND_LICENSE_KEY` environment variable, both passed in
explicitly. Fails (AssertionError) exactly when the resolved license key
is `None`. -/
def Geoip2DataBase.init (edition_id : String) (directory license_key : Option String)
    (geoip2ToolsDirectory : String) (envLicense : Option String) :
    Except String Geoip2DataBase :=
  let ed := (DATABASE_ALIASES.lookup edition_id).getD edition_id
  let dir := if pyTruthy directory then directory.getD "" else geoip2ToolsDirectory
  match resolveCredential license_key envLicense with
  | none => .error "AssertionError: A MaxMind license is required."
  | some k => .ok ⟨ed, dir, k⟩

/-- `self.path`: `os.path.join(self.directory, f'{self.edition_id}.mmdb')`. -/
def Geoip2DataBase.path (db : Geoip2DataBase) : String :=
  osPathJoin db.directory (db.edition_id ++ ".mmdb")

/-- `self.exists()`: `os.path.lexists(self.path)`. -/
def Geoip2DataBase.exists (db : Geoip2DataBase) (fs : FS) : Bool :=
  fs.lexists db.path

/-- The query-parameter dict built by `download_params`. -/
structure DownloadParams where
  edition_id : String
  license_key : String
  suffix : String
deriving DecidableEq

/-- `self.download_params()`. -/
def Geoip2DataBase.download_params (db : Geoip2DataBase) : DownloadParams :=
  ⟨db.edition_id, db.license_key, "tar.gz"⟩

/-- The decoded gzip-tar archive: member names with their byte content. -/
structure Tar where
  members : List (String × Bytes)
deriving DecidableEq

/-- `tar.getnames()`. -/
def Tar.getnames (t : Tar) : List String :=
  t.members.map (fun m => m.1)

/-- Byte content of the member named `name` (first member with that name). -/
def Tar.extractBytes (t : Tar) (name : String) : Bytes :=
  (t.members.lookup name).getD []

/-- `next(filter(lambda x: x.endswith('.mmdb'), tar.getnames()))` without
the raise: the first member name ending in `.mmdb`, if any. -/
def firstMmdbMember (names : List String) : Option String :=
  names.find? (fun x => strEndsWith x ".mmdb")

/-- Modelled from the spec: `extract_file_to` is defined in
`geoip2_tools/utils.py`, which is not part of the provided sources. The
spec says: "Extract exactly that member's byte content and write it
into the already-open, lock-held file handle from step 1, replacing its
(empty) contents." So it writes the member's bytes as the content of the
locked target file. -/
def extract_file_to (tar : Tar) (memberPath : String) (fs : FS) (lockedPath : String) : FS :=
  fs.setFile lockedPath (tar.extractBytes memberPath)

/-- The `open` performed by `portalocker.Lock(path, mode='wb')`:
portalocker rewrites `'wb'` to the append mode `'ab'` before opening, so
the open creates the file (empty) if absent and keeps existing bytes.
It fails with `FileNotFoundError` when the file is absent and its parent
directory does not exist. -/
def openAppendCreate (fs : FS) (p : String) : Except String FS :=
  if fs.lexists p then .ok fs
  else if fs.dirExists (osPathDirname p) then .ok (fs.setFile p [])
  else .error ("FileNotFoundError: No such file or directory: " ++ p)

/-- Errors `download` can surface. -/
inductive DownloadError where
  /-- An OS error while opening the target file during lock acquisition. -/
  | ioError (msg : String)
  /-- `StopIteration` from `next(...)`: no `.mmdb` member in the archive. -/
  | stopIteration
deriving DecidableEq

/-- Outcome of one `download()` invocation: the filesystem afterwards, how
many HTTP GET requests were issued, whether `os.makedirs` ran, and the
error if one was raised. -/
structure DownloadOutcome where
  fs : FS
  httpRequests : Nat
  madeDirs : Bool
  error : Option DownloadError
deriving DecidableEq

/-- `Geoip2DataBase.download`. `response` is the archive the provider
would return for `self.download_params()` (the streamed body, reassembled
from its non-empty chunks in the temporary file and opened with
`tarfile.open`). Steps, in source order: acquire the lock (open the
target in append-create mode, lock, truncate — see `openAppendCreate`);
re-check `os.path.getsize(self.path) != 0` and return early if so; issue
the HTTP GET; `os.makedirs(self.directory, exist_ok=True)` when
`self.directory` is truthy; find the first `.mmdb` member
(`StopIteration` if none); `extract_file_to` it into the locked handle. -/
def Geoip2DataBase.download (db : Geoip2DataBase) (fs : FS) (response : Tar) :
    DownloadOutcome :=
  match openAppendCreate fs db.path with
  | .error e => ⟨fs, 0, false, some (.ioError e)⟩
  | .ok fs1 =>
    let fs2 := fs1.setFile db.path []
    if fs2.getsize db.path ≠ 0 then
      ⟨fs2, 0, false, none⟩
    else
      let made := db.directory != ""
      let fs3 := if made then fs2.makedirs db.directory else fs2
      match firstMmdbMember response.getnames with
      | none => ⟨fs3, 1, made, some .stopIteration⟩
      | some m => ⟨extract_file_to response m fs3 db.path, 1, made, none⟩

/-- An opaque `geoip2.database.Reader`, remembering the path it was opened
on. `geoip2.database.Reader(path)` is treated as an opaque constructor. -/
structure Reader where
  source : String
deriving DecidableEq

/-- The error the `reader` property raises. -/
inductive ReaderError where
  | databaseNotExists (msg : String)
deriving DecidableEq

/-- The `reader` property. `cache` is the current `self._reader` (a
`Reader` instance is truthy, `None` falsy); the result pairs the returned
reader with the new `self._reader`. Raises `DatabaseNotExists` when no
reader is cached and no filesystem entry exists at `self.path`; otherwise
opens and caches a reader on first access and returns the cached one. -/
def Geoip2DataBase.readerGet (db : Geoip2DataBase) (cache : Option Reader) (fs : FS) :
    Except ReaderError (Reader × Option Reader) :=
  if cache = none ∧ db.exists fs = false then
    .error (.databaseNotExists
      ("Database " ++ db.edition_id ++ " not exists in " ++ db.path ++ "."))
  else
    match cache with
    | none => let r : Reader := ⟨db.path⟩; .ok (r, some r)
    | some r => .ok (r, some r)

/-! ## Concrete example values

Used by the closed counterexample and witness theorems below. -/

/-- A manager as built by `Geoip2DataBase('country', '/data', 'secret')`. -/
def exDb : Geoip2DataBase := ⟨"GeoLite2-Country", "/data", "secret"⟩

/-- A filesystem with a non-empty installed database file at `exDb.path`. -/
def exFsInstalled : FS := ⟨[("/data/GeoLite2-Country.mmdb", [1, 2, 3])], ["/data"]⟩

/-- A filesystem with the target directory present but no database file. -/
def exFsEmptyDir : FS := ⟨[], ["/data"]⟩

/-- A completely empty filesystem (no files, no directories). -/
def exFsBare : FS := ⟨[], []⟩

/-- An archive whose only member is a `.mmdb` file with bytes `[9, 9]`. -/
def exTar : Tar := ⟨[("GeoLite2-Country_20261006/GeoLite2-Country.mmdb", [9, 9])]⟩

/-- An archive with no `.mmdb` member at all. -/
def exTarNoMmdb : Tar := ⟨[("README.txt", [7, 7])]⟩

/-! ## Helper lemmas -/

theorem FS.lookupFile_setFile_self (fs : FS) (p : String) (b : Bytes) :
    (fs.setFile p b).lookupFile p = some b := by
  simp [FS.setFile, FS.lookupFile, List.lookup]

theorem FS.lexists_setFile_self (fs : FS) (p : String) (b : Bytes) :
    (fs.setFile p b).lexists p = true := by
  simp [FS.lexists, FS.lookupFile_setFile_self]

theorem FS.getsize_setFile_empty (fs : FS) (p : String) :
    (fs.setFile p []).getsize p = 0 := by
  simp [FS.getsize, FS.lookupFile_setFile_self]

theorem FS.lookupFile_makedirs (fs : FS) (d p : String) :
    (fs.makedirs d).lookupFile p = fs.lookupFile p := by
  unfold FS.makedirs
  split <;> rfl

/-- Evaluating `download` past a successful lock acquisition: the target
file is truncated, the size re-check necessarily sees 0, and the archive
branch runs. -/
theorem download_core (db : Geoip2DataBase) (fs fs1 : FS) (tar : Tar)
    (h : openAppendCreate fs db.path = .ok fs1) :
    db.download fs tar =
      (let fs2 := fs1.setFile db.path []
       let made := db.directory != ""
       let fs3 := if made then fs2.makedirs db.directory else fs2
       match firstMmdbMember tar.getnames with
       | none => ⟨fs3, 1, made, some .stopIteration⟩
       | some m => ⟨extract_file_to tar m fs3 db.path, 1, made, none⟩) := by
  unfold Geoip2DataBase.download
  rw [h]
  simp [FS.getsize_setFile_empty]

/-! ## Claim theorems -/

/-- C1: the claim fails on the code. The claim (and the comment in
`download` itself) says that when the target file is non-empty after the
lock is taken, `download()` returns without any HTTP request. But
`portalocker.Lock(self.path, mode='wb')` truncates the target file as
part of lock acquisition, so `os.path.getsize(self.path)` is always 0 at
the re-check: with a non-empty installed database already at `path()`,
`download()` still issues the HTTP request and overwrites the file. -/
theorem c1_nonempty_file_still_fetches :
    exFsInstalled.getsize exDb.path = 3 ∧
    (exDb.download exFsInstalled exTar).httpRequests = 1 ∧
    (exDb.download exFsInstalled exTar).fs.lookupFile exDb.path = some [9, 9] := by
  decide

/-- C2: when the archive has no member whose name ends in `.mmdb`,
`download()` raises `StopIteration` and writes no bytes into the target
file: starting from an absent or empty-placeholder target, the file is
the empty placeholder afterwards. -/
theorem c2_no_mmdb_member_fails_and_leaves_placeholder
    (db : Geoip2DataBase) (fs : FS) (tar : Tar)
    (hprior : fs.lookupFile db.path = none ∨ fs.lookupFile db.path = some [])
    (hdir : fs.dirExists (osPathDirname db.path) = true)
    (hno : firstMmdbMember tar.getnames = none) :
    (db.download fs tar).error = some .stopIteration ∧
    (db.download fs tar).fs.lookupFile db.path = some [] := by
  obtain ⟨fs1, h1⟩ : ∃ fs1, openAppendCreate fs db.path = .ok fs1 := by
    rcases hprior with h | h
    · exact ⟨fs.setFile db.path [], by simp [openAppendCreate, FS.lexists, h, hdir]⟩
    · exact ⟨fs, by simp [openAppendCreate, FS.lexists, h]⟩
  rw [download_core db fs fs1 tar h1]
  simp only [hno]
  by_cases hd : db.directory = "" <;>
    simp [hd, FS.lookupFile_makedirs, FS.lookupFile_setFile_self]

/-- C2 witness: a concrete run in which the `.mmdb`-less archive makes
`download` fail with `StopIteration`, leaving the empty placeholder. -/
theorem c2_witness :
    ((exFsEmptyDir.lookupFile exDb.path = none ∨
      exFsEmptyDir.lookupFile exDb.path = some []) ∧
     exFsEmptyDir.dirExists (osPathDirname exDb.path) = true ∧
     firstMmdbMember exTarNoMmdb.getnames = none) ∧
    (exDb.download exFsEmptyDir exTarNoMmdb).error = some .stopIteration ∧
    (exDb.download exFsEmptyDir exTarNoMmdb).fs.lookupFile exDb.path = some [] :=
  ⟨⟨by decide, by decide, by decide⟩,
    c2_no_mmdb_member_fails_and_leaves_placeholder exDb exFsEmptyDir exTarNoMmdb
      (by decide) (by decide) (by decide)⟩

/-- C3 counterexample: the claim fails on the code. With no explicit
license key and the environment variable set to the empty string — so no
non-empty credential is supplied from either source — construction
nevertheless succeeds, because the assertion only checks that the
resolved value is not `None`. -/
theorem c3_empty_env_credential_accepted :
    resolveCredential none (some "") = some "" ∧
    Geoip2DataBase.init "country" none none "/default" (some "") =
      .ok ⟨"GeoLite2-Country", "/default", ""⟩ :=
  ⟨rfl, rfl⟩

/-- C3 (amended): construction fails if and only if the resolved
credential is `None`, i.e. the explicit `license_key` argument is `None`
or empty and the environment variable is unset; an environment value that
is present but empty is accepted. -/
theorem c3_init_fails_iff_credential_none
    (edition : String) (dir lk : Option String) (gd : String) (env : Option String) :
    (∃ e, Geoip2DataBase.init edition dir lk gd env = .error e) ↔
      resolveCredential lk env = none := by
  cases hk : resolveCredential lk env <;> simp [Geoip2DataBase.init, hk]

/-- C4: for every archive whose first `.mmdb`-named member has byte
content `B`, a successful `download()` leaves the file at `path()`
containing exactly `B` (via the spec-modelled `extract_file_to`). -/
theorem c4_installed_content_equals_member
    (db : Geoip2DataBase) (fs : FS) (tar : Tar) (m : String) (B : Bytes)
    (hopen : fs.lexists db.path = true ∨ fs.dirExists (osPathDirname db.path) = true)
    (hm : firstMmdbMember tar.getnames = some m)
    (hB : tar.extractBytes m = B) :
    (db.download fs tar).error = none ∧
    (db.download fs tar).fs.lookupFile db.path = some B := by
  obtain ⟨fs1, h1⟩ : ∃ fs1, openAppendCreate fs db.path = .ok fs1 := by
    by_cases hx : fs.lexists db.path = true
    · exact ⟨fs, by simp [openAppendCreate, hx]⟩
    · rcases hopen with h | h
      · exact absurd h hx
      · exact ⟨fs.setFile db.path [], by simp [openAppendCreate, hx, h]⟩
  rw [download_core db fs fs1 tar h1]
  simp only [hm]
  subst hB
  by_cases hd : db.directory = "" <;>
    simp [hd, extract_file_to, FS.lookupFile_makedirs, FS.lookupFile_setFile_self]

/-- C4 witness: a concrete run installing the member bytes `[9, 9]`. -/
theorem c4_witness :
    ((exFsEmptyDir.lexists exDb.path = true ∨
      exFsEmptyDir.dirExists (osPathDirname exDb.path) = true) ∧
     firstMmdbMember exTar.getnames =
       some "GeoLite2-Country_20261006/GeoLite2-Country.mmdb" ∧
     exTar.extractBytes "GeoLite2-Country_20261006/GeoLite2-Country.mmdb" = [9, 9]) ∧
    (exDb.download exFsEmptyDir exTar).error = none ∧
    (exDb.download exFsEmptyDir exTar).fs.lookupFile exDb.path = some [9, 9] :=
  ⟨⟨Or.inr (by decide), by decide, by decide⟩,
    c4_installed_content_equals_member exDb exFsEmptyDir exTar
      "GeoLite2-Country_20261006/GeoLite2-Country.mmdb" [9, 9]
      (Or.inr (by decide)) (by decide) (by decide)⟩

/-- C5: `path` is a pure function of the constructed configuration,
equal to the directory joined with `{canonical_edition}.mmdb`, and for
every alias in `DATABASE_ALIASES` a constructed manager uses the
canonical provider name, not the alias, in the filename. -/
theorem c5_path_pure_and_canonical :
    (∀ db : Geoip2DataBase, db.path = osPathJoin db.directory (db.edition_id ++ ".mmdb")) ∧
    (∀ a c, (a, c) ∈ DATABASE_ALIASES →
      ∀ (dir lk : Option String) (gd : String) (env : Option String) (db : Geoip2DataBase),
        Geoip2DataBase.init a dir lk gd env = .ok db →
          db.edition_id = c ∧ db.path = osPathJoin db.directory (c ++ ".mmdb")) := by
  refine ⟨fun db => rfl, ?_⟩
  intro a c hmem dir lk gd env db hinit
  cases hk : resolveCredential lk env
  · simp [Geoip2DataBase.init, hk] at hinit
  · simp only [Geoip2DataBase.init, hk] at hinit
    rw [Except.ok.injEq] at hinit
    subst hinit
    fin_cases hmem <;> exact ⟨rfl, rfl⟩

/-- C5 witness: constructing with the alias `country` yields the
canonical `GeoLite2-Country` filename. -/
theorem c5_witness :
    (("country", "GeoLite2-Country") ∈ DATABASE_ALIASES ∧
     Geoip2DataBase.init "country" (some "/d") (some "k") "/x" none =
       .ok ⟨"GeoLite2-Country", "/d", "k"⟩) ∧
    (⟨"GeoLite2-Country", "/d", "k"⟩ : Geoip2DataBase).edition_id = "GeoLite2-Country" ∧
    (⟨"GeoLite2-Country", "/d", "k"⟩ : Geoip2DataBase).path =
      osPathJoin "/d" ("GeoLite2-Country" ++ ".mmdb") :=
  ⟨⟨by decide, by rfl⟩,
    c5_path_pure_and_canonical.2 "country" "GeoLite2-Country" (by decide)
      (some "/d") (some "k") "/x" none ⟨"GeoLite2-Country", "/d", "k"⟩ (by rfl)⟩

/-- C6: the `reader` property raises `DatabaseNotExists`, with a message
naming the edition and the resolved path, exactly when no reader is
cached and no filesystem entry exists at `path()`. -/
theorem c6_reader_error_iff_uncached_and_absent
    (db : Geoip2DataBase) (cache : Option Reader) (fs : FS) :
    db.readerGet cache fs =
      .error (.databaseNotExists
        ("Database " ++ db.edition_id ++ " not exists in " ++ db.path ++ ".")) ↔
      (cache = none ∧ db.exists fs = false) := by
  unfold Geoip2DataBase.readerGet
  by_cases h : cache = none ∧ db.exists fs = false
  · simp [h]
  · rw [if_neg h]
    cases cache <;> simp_all

/-- C7: once a reader is cached, every access returns that same cached
instance, leaves the cache unchanged, and is independent of the
filesystem (the file may have changed or vanished). -/
theorem c7_cached_reader_stable (db : Geoip2DataBase) (r : Reader) (fs fs' : FS) :
    db.readerGet (some r) fs = .ok (r, some r) ∧
    db.readerGet (some r) fs = db.readerGet (some r) fs' := by
  constructor <;> simp [Geoip2DataBase.readerGet]

/-- C8: `exists()` is true exactly when a filesystem entry is present at
`path()` (content is not inspected), and the open performed by lock
acquisition in `download()` creates an empty placeholder that already
makes `exists()` true before any content is written. -/
theorem c8_exists_iff_entry_and_true_after_lock_open
    (db : Geoip2DataBase) (fs : FS) :
    (db.exists fs = true ↔ (fs.lookupFile db.path).isSome = true) ∧
    (∀ fs', fs.lexists db.path = false →
      fs.dirExists (osPathDirname db.path) = true →
      openAppendCreate fs db.path = .ok fs' →
        db.exists fs' = true ∧ fs'.lookupFile db.path = some []) := by
  refine ⟨Iff.rfl, ?_⟩
  intro fs' h1 h2 h3
  simp only [openAppendCreate, h1, h2, if_true, if_false, Bool.false_eq_true,
    ite_false, ite_true, Except.ok.injEq] at h3
  subst h3
  exact ⟨FS.lexists_setFile_self fs db.path [], FS.lookupFile_setFile_self fs db.path []⟩

/-- C8 witness: on a filesystem with the directory present but no
database file, the lock-acquisition open creates the placeholder and
`exists()` flips to true with empty content. -/
theorem c8_witness :
    (exFsEmptyDir.lexists exDb.path = false ∧
     exFsEmptyDir.dirExists (osPathDirname exDb.path) = true ∧
     openAppendCreate exFsEmptyDir exDb.path = .ok (exFsEmptyDir.setFile exDb.path [])) ∧
    exDb.exists (exFsEmptyDir.setFile exDb.path []) = true ∧
    (exFsEmptyDir.setFile exDb.path []).lookupFile exDb.path = some [] :=
  ⟨⟨by decide, by decide, by rfl⟩,
    (c8_exists_iff_entry_and_true_after_lock_open exDb exFsEmptyDir).2
      (exFsEmptyDir.setFile exDb.path []) (by decide) (by decide) (by rfl)⟩

/-- C9: when the configured directory (the parent of `path()`) does not
exist and the target file is absent, `download()` fails with
`FileNotFoundError` while opening the target during lock acquisition: no
HTTP request is issued, `os.makedirs` never runs, and the filesystem is
unchanged. -/
theorem c9_missing_directory_fails_at_lock
    (db : Geoip2DataBase) (fs : FS) (tar : Tar)
    (hpd : osPathDirname db.path = db.directory)
    (hnodir : fs.dirExists db.directory = false)
    (hnofile : fs.lexists db.path = false) :
    (db.download fs tar).error =
      some (.ioError ("FileNotFoundError: No such file or directory: " ++ db.path)) ∧
    (db.download fs tar).madeDirs = false ∧
    (db.download fs tar).httpRequests = 0 ∧
    (db.download fs tar).fs = fs := by
  have hopen : openAppendCreate fs db.path =
      .error ("FileNotFoundError: No such file or directory: " ++ db.path) := by
    simp [openAppendCreate, hnofile, hpd, hnodir]
  unfold Geoip2DataBase.download
  rw [hopen]
  exact ⟨rfl, rfl, rfl, rfl⟩

/-- C9 witness: on an empty filesystem, `download` fails with the open
error, performs no fetch and no `makedirs`, and changes nothing. -/
theorem c9_witness :
    (osPathDirname exDb.path = exDb.directory ∧
     exFsBare.dirExists exDb.directory = false ∧
     exFsBare.lexists exDb.path = false) ∧
    (exDb.download exFsBare exTar).error =
      some (.ioError ("FileNotFoundError: No such file or directory: " ++ exDb.path)) ∧
    (exDb.download exFsBare exTar).madeDirs = false ∧
    (exDb.download exFsBare exTar).httpRequests = 0 ∧
    (exDb.download exFsBare exTar).fs = exFsBare :=
  ⟨⟨by decide, by decide, by decide⟩,
    c9_missing_directory_fails_at_lock exDb exFsBare exTar
      (by decide) (by decide) (by decide)⟩

/-- C10: an edition identifier that is not a key of `DATABASE_ALIASES` is
adopted verbatim: the constructed `edition_id`, the filename in `path`,
and the `edition_id` query parameter of `download_params` all equal the
given string. -/
theorem c10_unaliased_edition_verbatim
    (edition : String) (dir lk : Option String) (gd : String)
    (env : Option String) (db : Geoip2DataBase)
    (halias : DATABASE_ALIASES.lookup edition = none)
    (hinit : Geoip2DataBase.init edition dir lk gd env = .ok db) :
    db.edition_id = edition ∧
    db.path = osPathJoin db.directory (edition ++ ".mmdb") ∧
    db.download_params.edition_id = edition := by
  cases hk : resolveCredential lk env
  · simp [Geoip2DataBase.init, hk] at hinit
  · simp only [Geoip2DataBase.init, hk, halias, Option.getD_none] at hinit
    rw [Except.ok.injEq] at hinit
    subst hinit
    exact ⟨rfl, rfl, rfl⟩

/-- C10 witness: the unknown edition string `GeoLite2-ASN-CSV` is used
verbatim in the attribute, the path and the query parameters. -/
theorem c10_witness :
    (DATABASE_ALIASES.lookup "GeoLite2-ASN-CSV" = none ∧
     Geoip2DataBase.init "GeoLite2-ASN-CSV" (some "/d") (some "k") "/x" none =
       .ok ⟨"GeoLite2-ASN-CSV", "/d", "k"⟩) ∧
    (⟨"GeoLite2-ASN-CSV", "/d", "k"⟩ : Geoip2DataBase).edition_id = "GeoLite2-ASN-CSV" ∧
    (⟨"GeoLite2-ASN-CSV", "/d", "k"⟩ : Geoip2DataBase).path =
      osPathJoin "/d" ("GeoLite2-ASN-CSV" ++ ".mmdb") ∧
    (⟨"GeoLite2-ASN-CSV", "/d", "k"⟩ : Geoip2DataBase).download_params.edition_id =
      "GeoLite2-ASN-CSV" :=
  ⟨⟨by decide, by rfl⟩,
    c10_unaliased_edition_verbatim "GeoLite2-ASN-CSV" (some "/d") (some "k") "/x" none
      ⟨"GeoLite2-ASN-CSV", "/d", "k"⟩ (by decide) (by rfl)⟩
